import Mathlib

/-!
Shallow embedding of the offline-first synchronization engine of the
mysmartcapi repository, together with theorems settling the frozen claims
about it.

The embedded code comes from:
* the IndexedDB-backed local record store (`localDb.js`:
  `getPendingTranscripts`, `updateTranscriptStatus`, schema with key path
  `uuid` and index `sync_status`);
* the two sync orchestrators (`syncService.js` `syncWithServer` in the
  client, and the service worker's `syncWithServer`), which differ in how
  they map server statuses and in whether a failure is rethrown;
* the service worker's `activate` and `fetch` listeners (cache cleanup and
  request-routing strategies);
* the `AutoSyncManager` class of `networkMonitor.js` (retry cap and the
  offline guard of `attemptSync`).

Stateful JavaScript is modelled by explicit state passing: the IndexedDB
object store becomes a list of records, a `fetch` call becomes an oracle
value describing the transport outcome, promise rejection becomes an
explicit boolean or an `Except` value.
-/

namespace SmartCAPI

/-- A transcript record as created by `saveTranscript` in `localDb.js`:
`{ uuid, speaker_id, text, updated_at, sync_status }`, stored in the
IndexedDB object store `transcripts` with key path `uuid`.  `updated_at`
is a client-clock timestamp (a number in JS, modelled as `Nat`). -/
structure TranscriptRecord where
  uuid : String
  speaker_id : String
  text : String
  updated_at : Nat
  sync_status : String
deriving DecidableEq, Repr

/-- The IndexedDB object store `transcripts`, modelled as the list of its
records.  The key path `uuid` makes `uuid` the primary key. -/
abbrev Store := List TranscriptRecord

/-- Model of `getPendingTranscripts` (`localDb.js` and the service worker): read the
`sync_status` index at key `"pending"`, i.e. all records whose
`sync_status` is `"pending"`. -/
def getPendingTranscripts (store : Store) : List TranscriptRecord :=
  store.filter (fun r => r.sync_status == "pending")

/-- The effect of IndexedDB `get(uuid)` followed by
`record.sync_status = status; store.put(record)`: the record keyed by
`uuid` has its `sync_status` field replaced, every other record and every
other field is untouched. -/
def applyOne (store : Store) (uuid status : String) : Store :=
  store.map (fun r => if r.uuid == uuid then { r with sync_status := status } else r)

/-- Model of `updateTranscriptStatus(uuid, status)` (`localDb.js` and the service
worker): reject with `"Record not found."` when no record with this key
exists, otherwise put back the record with only `sync_status` replaced. -/
def updateTranscriptStatus (store : Store) (uuid status : String) :
    Except String Store :=
  if store.any (fun r => r.uuid == uuid) then
    .ok (applyOne store uuid status)
  else
    .error "Record not found."

/-- One entry of the server's sync response `data.results`, as the client
code reads it: `result.uuid` and `result.status`. -/
structure SyncResult where
  uuid : String
  status : String
deriving DecidableEq, Repr

/-- The service worker's status mapping
(`const newStatus = (result.status === 'created' || result.status === 'updated') ? 'synced' : 'conflict'`). -/
def mapStatusSW (s : String) : String :=
  if s == "created" || s == "updated" then "synced" else "conflict"

/-- The client `syncService.js` mapping: `created`/`updated` update to
`synced`, `conflict` updates to `conflict`, and any other status falls
through the `if`/`else if` chain without calling
`updateTranscriptStatus` at all. -/
def mapStatusClient (s : String) : Option String :=
  if s == "created" || s == "updated" then some "synced"
  else if s == "conflict" then some "conflict"
  else none

/-- Aggregate store effect of `Promise.all(data.results.map(...))` in the
service worker: every result entry updates its record (updates of missing
keys reject but do not cancel the others, and touch nothing). -/
def applyResultsSW (store : Store) : List SyncResult → Store
  | [] => store
  | res :: rs => applyResultsSW (applyOne store res.uuid (mapStatusSW res.status)) rs

/-- Aggregate store effect of the client `syncService.js` result loop:
entries with an unrecognized status produce no update call. -/
def applyResultsClient (store : Store) : List SyncResult → Store
  | [] => store
  | res :: rs =>
    match mapStatusClient res.status with
    | some st => applyResultsClient (applyOne store res.uuid st) rs
    | none => applyResultsClient store rs

/-- Did any `updateTranscriptStatus` promise reject because its key was
missing?  Key existence is invariant under `applyOne`, so this can be
computed against the store as it was before the batch. -/
def anyUpdateMissing (store : Store) (results : List SyncResult) : Bool :=
  results.any (fun res => !(store.any (fun r => r.uuid == res.uuid)))

/-- Outcome of the single `fetch('http://127.0.0.1:8000/api/sync', ...)`
call: either the promise rejects (transport failure) or a response with an
HTTP status and a parsed `results` body arrives. -/
inductive FetchOutcome where
  | transportError : FetchOutcome
  | response (status : Nat) (results : List SyncResult) : FetchOutcome
deriving DecidableEq, Repr

/-- JavaScript `response.ok`: HTTP status in the inclusive range 200–299. -/
def responseOk (status : Nat) : Bool :=
  200 ≤ status && status < 300

/-- Observable outcome of one `syncWithServer()` invocation: the store it
leaves behind, whether the network was contacted at all, and whether the
function's promise rejects (i.e. the error reaches the caller). -/
structure SyncOutcome where
  store : Store
  networkCalled : Bool
  threw : Bool
deriving DecidableEq, Repr

/-- The service worker's `syncWithServer`: early return on an empty pending
set; a transport rejection or a non-ok response throws past the `catch`
(which rethrows); on an ok response every result is applied and a missing
record makes `Promise.all` reject, which is also rethrown. -/
def syncWithServerSW (store : Store) (outcome : FetchOutcome) : SyncOutcome :=
  if (getPendingTranscripts store).isEmpty then
    ⟨store, false, false⟩
  else
    match outcome with
    | .transportError => ⟨store, true, true⟩
    | .response status results =>
      if responseOk status then
        ⟨applyResultsSW store results, true, anyUpdateMissing store results⟩
      else
        ⟨store, true, true⟩

/-- The client `syncService.js` `syncWithServer`: same shape, but its
`catch` block only logs — no error ever propagates to the caller. -/
def syncWithServerClient (store : Store) (outcome : FetchOutcome) : SyncOutcome :=
  if (getPendingTranscripts store).isEmpty then
    ⟨store, false, false⟩
  else
    match outcome with
    | .transportError => ⟨store, true, false⟩
    | .response status results =>
      if responseOk status then
        ⟨applyResultsClient store results, true, false⟩
      else
        ⟨store, true, false⟩

/-! ### AutoSyncManager (`networkMonitor.js`) -/

/-- Mutable fields of `AutoSyncManager` that the claims are about:
`retryCount`, and whether a `setTimeout` retry is currently pending
(`retryTimer !== null`). -/
structure AutoSyncState where
  retryCount : Nat
  timerPending : Bool
deriving DecidableEq, Repr

/-- Value of `options.maxRetries || 5` with empty options. -/
def defaultMaxRetries : Nat := 5

/-- Value of `options.retryInterval || 30000` with empty options (milliseconds). -/
def defaultRetryIntervalMs : Nat := 30000

/-- Model of `scheduleRetry()`: at the cap (`retryCount >= maxRetries`) it resets
`retryCount` to 0 and returns without scheduling; otherwise it increments
`retryCount`, clears any old timer and sets a fresh one.  The boolean
reports whether a retry was scheduled. -/
def scheduleRetry (maxRetries : Nat) (s : AutoSyncState) : AutoSyncState × Bool :=
  if maxRetries ≤ s.retryCount then
    (⟨0, s.timerPending⟩, false)
  else
    (⟨s.retryCount + 1, true⟩, true)

/-- Model of `attemptSync()`: bail out immediately when `navigator.onLine` is false;
otherwise run the sync callback — on success reset the count and clear the
timer, on failure call `scheduleRetry`.  Returns the new state, whether the
callback was invoked, and whether a retry was scheduled. -/
def attemptSync (maxRetries : Nat) (online callbackOk : Bool)
    (s : AutoSyncState) : AutoSyncState × Bool × Bool :=
  if !online then
    (s, false, false)
  else if callbackOk then
    (⟨0, false⟩, true, false)
  else
    let (s', sched) := scheduleRetry maxRetries s
    (s', true, sched)

/-- A pending `setTimeout` fires: the timer is consumed just before the
scheduled `attemptSync()` body runs. -/
def fireTimer (s : AutoSyncState) : AutoSyncState :=
  ⟨s.retryCount, false⟩

/-- The retry chain that one explicit trigger starts while the device stays
online and the sync callback always fails: run `attemptSync`, and as long
as it schedules a retry, let that timer fire and run it again.  Returns how
many retries were scheduled and the final manager state.  `fuel` bounds the
recursion; the chain itself stops as soon as nothing is scheduled. -/
def failChain (maxRetries : Nat) : Nat → AutoSyncState → Nat × AutoSyncState
  | 0, s => (0, s)
  | fuel + 1, s =>
    let (s', _, sched) := attemptSync maxRetries true false s
    if sched then
      let (n, s'') := failChain maxRetries fuel (fireTimer s')
      (n + 1, s'')
    else
      (0, s')

/-! ### Service-worker cache lifecycle and request router -/

/-- Constant `CACHE_NAME = 'smartcapi-v1'` — the current cache version tag. -/
def CACHE_NAME : String := "smartcapi-v1"

/-- Effect of the `install` listener's `caches.open(CACHE_NAME)` on the set
of durable cache names: the current cache exists afterwards. -/
def installCaches (cacheNames : List String) : List String :=
  if cacheNames.contains CACHE_NAME then cacheNames else CACHE_NAME :: cacheNames

/-- Effect of the `activate` listener on the set of durable cache names:
every name different from `CACHE_NAME` is deleted. -/
def activateCaches (cacheNames : List String) : List String :=
  cacheNames.filter (fun n => n == CACHE_NAME)

/-- The static-asset manifest `STATIC_FILES` of the service worker. -/
def STATIC_FILES : List String :=
  ["/", "/index.html", "/offline.html", "/manifest.json",
   "/icons/smartcapi-icon.png", "/icons/smartcapi-logo.png"]

/-- JavaScript `pat` being a leading pattern of `s`
(`s.startsWith(pat)`), computed on the character lists. -/
def charsBeginWith : List Char → List Char → Bool
  | _, [] => true
  | [], _ :: _ => false
  | a :: as, b :: bs => a == b && charsBeginWith as bs

/-- JavaScript `s.startsWith(pat)`. -/
def jsBeginsWith (s pat : String) : Bool :=
  charsBeginWith s.data pat.data

/-- JavaScript `s.endsWith(pat)`. -/
def jsEndsWith (s pat : String) : Bool :=
  charsBeginWith s.data.reverse pat.data.reverse

/-- The fetch listener's static-file test:
`STATIC_FILES.some(file => url.pathname.endsWith(file) || url.pathname === file)`. -/
def isStaticRequest (pathname : String) : Bool :=
  STATIC_FILES.any (fun f => jsEndsWith pathname f || pathname == f)

/-- Which of the fetch listener's strategies handles a request. -/
inductive Strategy where
  | passthrough : Strategy
  | cacheFirst : Strategy
  | networkFirstApi : Strategy
  | networkFirstGeneric : Strategy
deriving DecidableEq, Repr

/-- The fetch listener's dispatch, in source order: non-GET requests are
not intercepted; then the static-file test; then the `/api/` test; then
the generic network-first strategy. -/
def classifyRequest (method pathname : String) : Strategy :=
  if method != "GET" then .passthrough
  else if isStaticRequest pathname then .cacheFirst
  else if jsBeginsWith pathname "/api/" then .networkFirstApi
  else .networkFirstGeneric

/-- An HTTP response as far as the router observes it. -/
structure Response where
  status : Nat
  body : String
deriving DecidableEq, Repr

/-- JavaScript `response.ok`. -/
def Response.isOk (r : Response) : Bool :=
  200 ≤ r.status && r.status < 300

/-- Body of the synthesized offline response,
`JSON.stringify({ error: 'Offline - No cached data available', offline: true })`. -/
def offlineBody : String :=
  "\x7b\"error\":\"Offline - No cached data available\",\"offline\":true\x7d"

/-- The `status: 503` response the API strategy synthesizes when offline
with no cached copy. -/
def offlineResponse : Response :=
  ⟨503, offlineBody⟩

/-- The API (`/api/`) strategy of the fetch listener, as a function of the
network outcome and the cache lookup for the exact request: serve the
network response when the fetch resolves, caching a copy only when
`response.ok`; on fetch rejection serve the cached copy if any, else the
synthesized 503.  The second component is what gets written to the cache. -/
def apiFetchHandler (network cached : Option Response) :
    Response × Option Response :=
  match network with
  | some resp => (resp, if resp.isOk then some resp else none)
  | none =>
    match cached with
    | some c => (c, none)
    | none => (offlineResponse, none)

/-! ### Characterization lemmas for the batch-apply functions -/

/-- One step of the status evolution a service-worker result entry causes
for the record keyed by `u`. -/
def stepSW (u : String) (s : String) (res : SyncResult) : String :=
  if res.uuid == u then mapStatusSW res.status else s

/-- Status of the record keyed by `u` after the service worker applies a
whole results list, starting from status `s0`. -/
def statusAfterSW (u s0 : String) (results : List SyncResult) : String :=
  results.foldl (stepSW u) s0

/-- One step of the status evolution a client result entry causes for the
record keyed by `u` (unrecognized statuses leave it alone). -/
def stepClient (u : String) (s : String) (res : SyncResult) : String :=
  if res.uuid == u then (mapStatusClient res.status).getD s else s

/-- Status of the record keyed by `u` after the client applies a whole
results list, starting from status `s0`. -/
def statusAfterClient (u s0 : String) (results : List SyncResult) : String :=
  results.foldl (stepClient u) s0

lemma find?_applyOne (store : Store) (u' st u : String) :
    (applyOne store u' st).find? (fun r => r.uuid == u) =
      (store.find? (fun r => r.uuid == u)).map
        (fun r => if r.uuid == u' then { r with sync_status := st } else r) := by
  have hpf :
      ((fun r : TranscriptRecord => r.uuid == u) ∘
        (fun r => if r.uuid == u' then { r with sync_status := st } else r)) =
      (fun r : TranscriptRecord => r.uuid == u) := by
    funext r
    by_cases h : (r.uuid == u') = true
    · simp [Function.comp, h]
    · simp [Function.comp, h]
  unfold applyOne
  rw [List.find?_map, hpf]

lemma find?_applyResultsSW (results : List SyncResult) (store : Store) (u : String) :
    (applyResultsSW store results).find? (fun r => r.uuid == u) =
      (store.find? (fun r => r.uuid == u)).map
        (fun r => { r with sync_status := statusAfterSW u r.sync_status results }) := by
  induction results generalizing store with
  | nil =>
    cases h : store.find? (fun r => r.uuid == u) <;>
      simp [applyResultsSW, statusAfterSW, h]
  | cons res rs ih =>
    rw [applyResultsSW, ih, find?_applyOne]
    cases h : store.find? (fun r => r.uuid == u) with
    | none => simp
    | some r =>
      have hu : r.uuid = u := by
        have := List.find?_some h
        simpa using this
      by_cases hc : res.uuid = u
      · simp [statusAfterSW, stepSW, hu, hc, List.foldl_cons]
      · have hc' : ¬u = res.uuid := fun hh => hc hh.symm
        simp [statusAfterSW, stepSW, hu, hc, hc', List.foldl_cons]

lemma find?_applyResultsClient (results : List SyncResult) (store : Store) (u : String) :
    (applyResultsClient store results).find? (fun r => r.uuid == u) =
      (store.find? (fun r => r.uuid == u)).map
        (fun r => { r with sync_status := statusAfterClient u r.sync_status results }) := by
  induction results generalizing store with
  | nil =>
    cases h : store.find? (fun r => r.uuid == u) <;>
      simp [applyResultsClient, statusAfterClient, h]
  | cons res rs ih =>
    rw [applyResultsClient]
    cases hm : mapStatusClient res.status with
    | some st =>
      rw [ih, find?_applyOne]
      cases h : store.find? (fun r => r.uuid == u) with
      | none => simp
      | some r =>
        have hu : r.uuid = u := by
          have := List.find?_some h
          simpa using this
        by_cases hc : res.uuid = u
        · simp [statusAfterClient, stepClient, hu, hc, hm, List.foldl_cons]
        · have hc' : ¬u = res.uuid := fun hh => hc hh.symm
          simp [statusAfterClient, stepClient, hu, hc, hc', hm, List.foldl_cons]
    | none =>
      rw [ih]
      cases h : store.find? (fun r => r.uuid == u) with
      | none => simp
      | some r =>
        by_cases hc : res.uuid = u
        · simp [statusAfterClient, stepClient, hc, hm, List.foldl_cons]
        · simp [statusAfterClient, stepClient, hc, hm, List.foldl_cons]

lemma statusAfterSW_no_match (u : String) (s : String) (results : List SyncResult)
    (h : ∀ res ∈ results, res.uuid ≠ u) : statusAfterSW u s results = s := by
  induction results generalizing s with
  | nil => rfl
  | cons res rs ih =>
    have hres : (res.uuid == u) = false := by
      simp
      exact h res (List.mem_cons_self res rs)
    rw [statusAfterSW, List.foldl_cons]
    rw [show stepSW u s res = s from by simp [stepSW, hres]]
    exact ih s (fun x hx => h x (List.mem_cons_of_mem res hx))

lemma statusAfterClient_no_match (u : String) (s : String) (results : List SyncResult)
    (h : ∀ res ∈ results, res.uuid ≠ u) : statusAfterClient u s results = s := by
  induction results generalizing s with
  | nil => rfl
  | cons res rs ih =>
    have hres : (res.uuid == u) = false := by
      simp
      exact h res (List.mem_cons_self res rs)
    rw [statusAfterClient, List.foldl_cons]
    rw [show stepClient u s res = s from by simp [stepClient, hres]]
    exact ih s (fun x hx => h x (List.mem_cons_of_mem res hx))

/-- When the results list mentions each key at most once, the status of the
record keyed by the single matching entry is exactly that entry's mapped
status (service-worker mapping). -/
lemma statusAfterSW_unique (u s0 : String) (results : List SyncResult)
    (res : SyncResult) (hmem : res ∈ results)
    (hnd : (results.map SyncResult.uuid).Nodup) (hres : res.uuid = u) :
    statusAfterSW u s0 results = mapStatusSW res.status := by
  obtain ⟨l1, l2, rfl⟩ := List.append_of_mem hmem
  have hmap : ((l1 ++ res :: l2).map SyncResult.uuid) =
      l1.map SyncResult.uuid ++ (res.uuid :: l2.map SyncResult.uuid) := by
    simp
  rw [hmap] at hnd
  have hdisj := List.disjoint_of_nodup_append hnd
  have h1 : ∀ x ∈ l1, x.uuid ≠ u := by
    intro x hx hxu
    exact hdisj (List.mem_map_of_mem SyncResult.uuid hx)
      (by simp [hxu, hres.symm])
  have hr : res.uuid ∉ l2.map SyncResult.uuid :=
    (List.nodup_cons.mp hnd.of_append_right).1
  have h2 : ∀ x ∈ l2, x.uuid ≠ u := by
    intro x hx hxu
    exact hr (by
      have : x.uuid ∈ l2.map SyncResult.uuid := List.mem_map_of_mem SyncResult.uuid hx
      rwa [hxu, ← hres] at this)
  rw [statusAfterSW, List.foldl_append, List.foldl_cons]
  rw [show l1.foldl (stepSW u) s0 = s0 from statusAfterSW_no_match u s0 l1 h1]
  rw [show stepSW u s0 res = mapStatusSW res.status from by simp [stepSW, hres]]
  exact statusAfterSW_no_match u _ l2 h2

/-- When the results list mentions each key at most once, the status of the
record keyed by the single matching entry is that entry's client-mapped
status when one exists, and the starting status otherwise. -/
lemma statusAfterClient_unique (u s0 : String) (results : List SyncResult)
    (res : SyncResult) (hmem : res ∈ results)
    (hnd : (results.map SyncResult.uuid).Nodup) (hres : res.uuid = u) :
    statusAfterClient u s0 results = (mapStatusClient res.status).getD s0 := by
  obtain ⟨l1, l2, rfl⟩ := List.append_of_mem hmem
  have hmap : ((l1 ++ res :: l2).map SyncResult.uuid) =
      l1.map SyncResult.uuid ++ (res.uuid :: l2.map SyncResult.uuid) := by
    simp
  rw [hmap] at hnd
  have hdisj := List.disjoint_of_nodup_append hnd
  have h1 : ∀ x ∈ l1, x.uuid ≠ u := by
    intro x hx hxu
    exact hdisj (List.mem_map_of_mem SyncResult.uuid hx)
      (by simp [hxu, hres.symm])
  have hr : res.uuid ∉ l2.map SyncResult.uuid :=
    (List.nodup_cons.mp hnd.of_append_right).1
  have h2 : ∀ x ∈ l2, x.uuid ≠ u := by
    intro x hx hxu
    exact hr (by
      have : x.uuid ∈ l2.map SyncResult.uuid := List.mem_map_of_mem SyncResult.uuid hx
      rwa [hxu, ← hres] at this)
  rw [statusAfterClient, List.foldl_append, List.foldl_cons]
  rw [show l1.foldl (stepClient u) s0 = s0 from statusAfterClient_no_match u s0 l1 h1]
  rw [show stepClient u s0 res = (mapStatusClient res.status).getD s0 from by
    simp [stepClient, hres]]
  exact statusAfterClient_no_match u _ l2 h2

/-- A record that is pending makes the orchestrators' empty-queue guard
fail, so the network path runs. -/
lemma pending_isEmpty_false (store : Store) (r : TranscriptRecord)
    (hr : r ∈ store) (hp : r.sync_status = "pending") :
    (getPendingTranscripts store).isEmpty = false := by
  have hmem : r ∈ getPendingTranscripts store :=
    List.mem_filter.mpr ⟨hr, by simp [hp]⟩
  cases h : getPendingTranscripts store with
  | nil => rw [h] at hmem; cases hmem
  | cons a l => simp [h]



/-- Equation for a failing online `attemptSync`. -/
lemma attemptSync_fail (m : Nat) (s : AutoSyncState) :
    attemptSync m true false s =
      if m ≤ s.retryCount then (⟨0, s.timerPending⟩, true, false)
      else (⟨s.retryCount + 1, true⟩, true, true) := by
  by_cases h : m ≤ s.retryCount <;> simp [attemptSync, scheduleRetry, h]

/-- Unfolding of one round of the always-failing retry chain. -/
lemma failChain_succ (m fuel : Nat) (s : AutoSyncState) :
    failChain m (fuel + 1) s =
      if m ≤ s.retryCount then (0, ⟨0, s.timerPending⟩)
      else
        ((failChain m fuel (fireTimer ⟨s.retryCount + 1, true⟩)).1 + 1,
          (failChain m fuel (fireTimer ⟨s.retryCount + 1, true⟩)).2) := by
  by_cases h : m ≤ s.retryCount
  · simp [failChain, attemptSync, scheduleRetry, h]
  · simp [failChain, attemptSync, scheduleRetry, h]

/-- The always-failing retry chain schedules at most `m - retryCount`
retries. -/
lemma failChain_count_le (m : Nat) : ∀ (fuel : Nat) (s : AutoSyncState),
    (failChain m fuel s).1 ≤ m - s.retryCount := by
  intro fuel
  induction fuel with
  | zero => intro s; simp [failChain]
  | succ fuel ih =>
    intro s
    rw [failChain_succ]
    by_cases h : m ≤ s.retryCount
    · simp [h]
    · have hrec := ih (fireTimer ⟨s.retryCount + 1, true⟩)
      simp only [h, if_false]
      simp only [fireTimer] at hrec ⊢
      omega

/-- The always-failing retry chain never leaves a timer pending when it
started with none. -/
lemma failChain_timer (m : Nat) : ∀ (fuel : Nat) (s : AutoSyncState),
    s.timerPending = false → (failChain m fuel s).2.timerPending = false := by
  intro fuel
  induction fuel with
  | zero => intro s h; simpa [failChain] using h
  | succ fuel ih =>
    intro s h
    rw [failChain_succ]
    by_cases hc : m ≤ s.retryCount
    · simpa [hc] using h
    · simpa [hc] using ih (fireTimer ⟨s.retryCount + 1, true⟩) rfl

/-! ### Claim theorems -/

/-- C5: invoking the sync operation with zero pending records issues no
network request, returns successfully, and leaves the store unchanged, in
both the service-worker and the client implementation. -/
theorem C5_empty_queue_noop (store : Store) (outcome : FetchOutcome)
    (h : getPendingTranscripts store = []) :
    syncWithServerSW store outcome = ⟨store, false, false⟩ ∧
    syncWithServerClient store outcome = ⟨store, false, false⟩ := by
  constructor <;> simp [syncWithServerSW, syncWithServerClient, h]

/-- Witness for C5 at a store holding one already-synced record. -/
theorem C5_empty_queue_noop_witness :
    getPendingTranscripts [⟨"u1", "sp", "hello", 100, "synced"⟩] = [] ∧
    syncWithServerSW [⟨"u1", "sp", "hello", 100, "synced"⟩] .transportError =
      ⟨[⟨"u1", "sp", "hello", 100, "synced"⟩], false, false⟩ ∧
    syncWithServerClient [⟨"u1", "sp", "hello", 100, "synced"⟩] .transportError =
      ⟨[⟨"u1", "sp", "hello", 100, "synced"⟩], false, false⟩ :=
  ⟨by decide,
   (C5_empty_queue_noop [⟨"u1", "sp", "hello", 100, "synced"⟩] .transportError (by decide)).1,
   (C5_empty_queue_noop [⟨"u1", "sp", "hello", 100, "synced"⟩] .transportError (by decide)).2⟩

/-- C10: while connectivity is reported offline, `attemptSync` returns
immediately: the callback is not invoked, the state (retry count and
pending timer) is unchanged, and no retry is scheduled. -/
theorem C10_offline_guard (maxRetries : Nat) (callbackOk : Bool) (s : AutoSyncState) :
    attemptSync maxRetries false callbackOk s = (s, false, false) := by
  simp [attemptSync]

/-- C6: the default retry cap is 5; with an always-failing callback the
retry chain started by one explicit trigger schedules at most `maxRetries`
retries and ends with no timer pending; and once the count has reached the
cap, a failing `attemptSync` schedules nothing. -/
theorem C6_retry_cap :
    defaultMaxRetries = 5 ∧
    (∀ m fuel : Nat, (failChain m fuel ⟨0, false⟩).1 ≤ m ∧
      (failChain m fuel ⟨0, false⟩).2.timerPending = false) ∧
    (∀ (m : Nat) (s : AutoSyncState), m ≤ s.retryCount →
      (attemptSync m true false s).2.2 = false) := by
  refine ⟨rfl, ?_, ?_⟩
  · intro m fuel
    exact ⟨le_trans (failChain_count_le m fuel ⟨0, false⟩) (by simp),
      failChain_timer m fuel ⟨0, false⟩ rfl⟩
  · intro m s h
    simp [attemptSync, scheduleRetry, h]

/-- Witness for C6: at the cap (count 5 of 5), a failing attempt schedules
no retry; and a long always-failing chain schedules exactly at most 5. -/
theorem C6_retry_cap_witness :
    (attemptSync 5 true false ⟨5, false⟩).2.2 = false ∧
    (failChain 5 100 ⟨0, false⟩).1 ≤ 5 :=
  ⟨C6_retry_cap.2.2 5 ⟨5, false⟩ (by decide),
   (C6_retry_cap.2.1 5 100).1⟩

/-- C7: after the install step ensures the current cache exists and the
activate step deletes every cache whose name differs from `CACHE_NAME`,
exactly the current cache generation exists. -/
theorem C7_cache_generation_hygiene (cacheNames : List String) :
    (activateCaches (installCaches cacheNames)).toFinset = {CACHE_NAME} := by
  have hmem : CACHE_NAME ∈ installCaches cacheNames := by
    unfold installCaches
    by_cases h : cacheNames.contains CACHE_NAME = true
    · rw [if_pos h]
      exact List.mem_of_elem_eq_true h
    · rw [if_neg h]
      exact List.mem_cons_self _ _
  ext n
  simp only [List.mem_toFinset, activateCaches, List.mem_filter,
    Finset.mem_singleton, beq_iff_eq]
  constructor
  · rintro ⟨-, h⟩
    exact h
  · rintro rfl
    exact ⟨hmem, rfl⟩

/-- C8 counterexample: the GET request for `/api/data/` is addressed to the
API namespace, yet the fetch listener's static-file test (which runs first
and matches any pathname ending in `/`) routes it to the cache-first
strategy, so the network is not attempted first. -/
theorem C8_api_network_first_cex :
    jsBeginsWith "/api/data/" "/api/" = true ∧
    classifyRequest "GET" "/api/data/" = Strategy.cacheFirst ∧
    Strategy.cacheFirst ≠ Strategy.networkFirstApi :=
  ⟨by decide, by decide, by decide⟩

/-- C8 (amended): every GET request in the API namespace that does not also
match the static-file patterns is handled network-first; the network
response is served and cached exactly when it is 2xx; on network failure
the cached copy for the exact request is served if present, else the
synthesized 503 offline response. -/
theorem C8_api_network_first (pathname : String) (network cached : Option Response)
    (hapi : jsBeginsWith pathname "/api/" = true)
    (hstatic : isStaticRequest pathname = false) :
    classifyRequest "GET" pathname = Strategy.networkFirstApi ∧
    (∀ resp : Response, network = some resp →
      apiFetchHandler network cached = (resp, if resp.isOk then some resp else none)) ∧
    (∀ c : Response, network = none → cached = some c →
      apiFetchHandler network cached = (c, none)) ∧
    (network = none → cached = none →
      apiFetchHandler network cached = (offlineResponse, none)) ∧
    (∀ r : Response, r.isOk = true ↔ (200 ≤ r.status ∧ r.status < 300)) := by
  refine ⟨?_, ?_, ?_, ?_, ?_⟩
  · simp [classifyRequest, hstatic, hapi]
  · rintro resp rfl
    rfl
  · rintro c rfl rfl
    rfl
  · rintro rfl rfl
    rfl
  · intro r
    simp [Response.isOk]

/-- Witness for C8 (amended) at `/api/interviews` with a 200 network
response and an empty cache. -/
theorem C8_api_network_first_witness :
    classifyRequest "GET" "/api/interviews" = Strategy.networkFirstApi ∧
    apiFetchHandler (some ⟨200, "ok"⟩) none = (⟨200, "ok"⟩, some ⟨200, "ok"⟩) := by
  have h := C8_api_network_first "/api/interviews" (some ⟨200, "ok"⟩) none
    (by decide) (by decide)
  exact ⟨h.1, by simpa using h.2.1 ⟨200, "ok"⟩ rfl⟩

/-- C3 counterexample: on a transport failure with pending data, the client
`syncService.js` catches the error and returns normally — it does not
propagate to the caller. -/
theorem C3_failed_attempt_cex :
    ¬ (syncWithServerClient [⟨"u1", "sp", "hello", 100, "pending"⟩]
        .transportError).threw = true := by
  decide

/-- C3 (amended): on a transport error or a non-2xx response with pending
records, neither implementation changes any record's status and both
report the network was contacted; the service-worker implementation
rethrows the error while the client implementation returns normally. -/
theorem C3_failed_attempt (store : Store) (outcome : FetchOutcome)
    (hne : (getPendingTranscripts store).isEmpty = false)
    (hfail : outcome = .transportError ∨
      ∃ status results, outcome = .response status results ∧ responseOk status = false) :
    syncWithServerSW store outcome = ⟨store, true, true⟩ ∧
    syncWithServerClient store outcome = ⟨store, true, false⟩ := by
  rcases hfail with rfl | ⟨status, results, rfl, hbad⟩
  · constructor <;> simp [syncWithServerSW, syncWithServerClient, hne]
  · constructor <;> simp [syncWithServerSW, syncWithServerClient, hne, hbad]

/-- Witness for C3 (amended) at a one-record pending store and a transport
failure. -/
theorem C3_failed_attempt_witness :
    syncWithServerSW [⟨"u1", "sp", "hello", 100, "pending"⟩] .transportError =
      ⟨[⟨"u1", "sp", "hello", 100, "pending"⟩], true, true⟩ ∧
    syncWithServerClient [⟨"u1", "sp", "hello", 100, "pending"⟩] .transportError =
      ⟨[⟨"u1", "sp", "hello", 100, "pending"⟩], true, false⟩ :=
  C3_failed_attempt [⟨"u1", "sp", "hello", 100, "pending"⟩] .transportError
    (by decide) (Or.inl rfl)

/-- C4 counterexample: updating the status of the record stored with
timestamp 100 succeeds but leaves `updated_at` at 100 — the call does not
refresh the last-modified timestamp as the claim requires (a refresh at
any later clock value, e.g. 200, is what the claim would produce). -/
theorem C4_set_status_cex :
    updateTranscriptStatus [⟨"u1", "sp", "hello", 100, "pending"⟩] "u1" "synced" =
      .ok [⟨"u1", "sp", "hello", 100, "synced"⟩] ∧
    updateTranscriptStatus [⟨"u1", "sp", "hello", 100, "pending"⟩] "u1" "synced" ≠
      .ok [⟨"u1", "sp", "hello", 200, "synced"⟩] := by
  refine ⟨rfl, ?_⟩
  intro h
  rw [show updateTranscriptStatus [⟨"u1", "sp", "hello", 100, "pending"⟩] "u1" "synced" =
      .ok [⟨"u1", "sp", "hello", 100, "synced"⟩] from rfl] at h
  simp at h

/-- C4 (amended): `updateTranscriptStatus` rejects with
`"Record not found."` when no record has the key, and otherwise replaces
only the record's `sync_status`, leaving `updated_at` (and every other
field) unchanged. -/
theorem C4_set_status (store : Store) (uuid status : String) :
    (store.any (fun r => r.uuid == uuid) = false →
      updateTranscriptStatus store uuid status = .error "Record not found.") ∧
    (∀ r : TranscriptRecord, store.find? (fun x => x.uuid == uuid) = some r →
      updateTranscriptStatus store uuid status = .ok (applyOne store uuid status) ∧
      (applyOne store uuid status).find? (fun x => x.uuid == uuid) =
        some { r with sync_status := status }) := by
  constructor
  · intro h
    simp [updateTranscriptStatus, h]
  · intro r hr
    have hexists : store.any (fun x => x.uuid == uuid) = true :=
      List.any_eq_true.mpr
      ⟨r, List.mem_of_find?_eq_some hr, by have := List.find?_some hr; simpa using this⟩
    refine ⟨by simp [updateTranscriptStatus, hexists], ?_⟩
    rw [find?_applyOne, hr]
    have hu : r.uuid = uuid := by
      have := List.find?_some hr
      simpa using this
    simp [hu]

/-- Witness for C4 (amended): the `NotFound` branch on an empty store and
the update branch on a one-record store. -/
theorem C4_set_status_witness :
    updateTranscriptStatus [] "u1" "synced" = .error "Record not found." ∧
    updateTranscriptStatus [⟨"u1", "sp", "hello", 100, "pending"⟩] "u1" "synced" =
      .ok (applyOne [⟨"u1", "sp", "hello", 100, "pending"⟩] "u1" "synced") ∧
    (applyOne [⟨"u1", "sp", "hello", 100, "pending"⟩] "u1" "synced").find?
        (fun x => x.uuid == "u1") = some ⟨"u1", "sp", "hello", 100, "synced"⟩ :=
  ⟨(C4_set_status [] "u1" "synced").1 (by decide),
   ((C4_set_status [⟨"u1", "sp", "hello", 100, "pending"⟩] "u1" "synced").2
      ⟨"u1", "sp", "hello", 100, "pending"⟩ (by decide)).1,
   ((C4_set_status [⟨"u1", "sp", "hello", 100, "pending"⟩] "u1" "synced").2
      ⟨"u1", "sp", "hello", 100, "pending"⟩ (by decide)).2⟩

/-- C9: a status update changes only the `sync_status` field of the
targeted record: its key, payload fields and timestamp are preserved, all
other records pass through untouched, and the projection of the store onto
every non-status field is unchanged. -/
theorem C9_update_only_status (store : Store) (uuid status : String)
    (r : TranscriptRecord) (hr : store.find? (fun x => x.uuid == uuid) = some r) :
    updateTranscriptStatus store uuid status = .ok (applyOne store uuid status) ∧
    (applyOne store uuid status).find? (fun x => x.uuid == uuid) =
      some { r with sync_status := status } ∧
    (∀ x ∈ store, (x.uuid == uuid) = false → x ∈ applyOne store uuid status) ∧
    (applyOne store uuid status).map
        (fun x => (x.uuid, x.speaker_id, x.text, x.updated_at)) =
      store.map (fun x => (x.uuid, x.speaker_id, x.text, x.updated_at)) := by
  have hexists : store.any (fun x => x.uuid == uuid) = true :=
    List.any_eq_true.mpr
      ⟨r, List.mem_of_find?_eq_some hr, by have := List.find?_some hr; simpa using this⟩
  refine ⟨by simp [updateTranscriptStatus, hexists], ?_, ?_, ?_⟩
  · rw [find?_applyOne, hr]
    have hu : r.uuid = uuid := by
      have := List.find?_some hr
      simpa using this
    simp [hu]
  · intro x hx hne
    have hfx : (if x.uuid == uuid then { x with sync_status := status } else x) = x := by
      simp [hne]
    have hmem : (if x.uuid == uuid then { x with sync_status := status } else x)
        ∈ applyOne store uuid status := List.mem_map_of_mem _ hx
    rwa [hfx] at hmem
  · unfold applyOne
    rw [List.map_map]
    congr 1
    funext x
    by_cases h : (x.uuid == uuid) = true <;> simp [Function.comp, h]

/-- Witness for C9 on a two-record store: the untouched record keeps its
status, the targeted record keeps everything but its status. -/
theorem C9_update_only_status_witness :
    updateTranscriptStatus
        [⟨"u1", "sp", "hello", 100, "pending"⟩, ⟨"u2", "sq", "bye", 7, "pending"⟩]
        "u1" "synced" =
      .ok (applyOne
        [⟨"u1", "sp", "hello", 100, "pending"⟩, ⟨"u2", "sq", "bye", 7, "pending"⟩]
        "u1" "synced") ∧
    (applyOne
        [⟨"u1", "sp", "hello", 100, "pending"⟩, ⟨"u2", "sq", "bye", 7, "pending"⟩]
        "u1" "synced").find? (fun x => x.uuid == "u1") =
      some ⟨"u1", "sp", "hello", 100, "synced"⟩ := by
  have h := C9_update_only_status
    [⟨"u1", "sp", "hello", 100, "pending"⟩, ⟨"u2", "sq", "bye", 7, "pending"⟩]
    "u1" "synced" ⟨"u1", "sp", "hello", 100, "pending"⟩ (by decide)
  exact ⟨h.1, h.2.1⟩

/-- C1 counterexample: a successful (200) response whose single result
entry has the unrecognized status `"skipped"` leaves the client-side
record `"pending"` — it does not become `"conflict"` as the claim
requires. -/
theorem C1_conservative_mapping_cex :
    syncWithServerClient [⟨"u1", "sp", "hello", 100, "pending"⟩]
        (.response 200 [⟨"u1", "skipped"⟩]) =
      ⟨[⟨"u1", "sp", "hello", 100, "pending"⟩], true, false⟩ ∧
    "pending" ≠ "conflict" :=
  ⟨by decide, by decide⟩

/-- C1 (amended): on a successful response whose results mention each key
at most once, a `created`/`updated` entry makes the matching record
`synced` in both implementations; any other status makes it `conflict` in
the service-worker implementation; in the client implementation only
`conflict` makes it `conflict`, while an unrecognized status leaves the
record unchanged (so it stays `pending`, never `synced`). -/
theorem C1_conservative_mapping
    (store : Store) (status : Nat) (results : List SyncResult)
    (res : SyncResult) (r : TranscriptRecord)
    (hok : responseOk status = true)
    (hfind : store.find? (fun x => x.uuid == res.uuid) = some r)
    (hpend : r.sync_status = "pending")
    (hmem : res ∈ results)
    (hnd : (results.map SyncResult.uuid).Nodup) :
    ((res.status = "created" ∨ res.status = "updated") →
      (syncWithServerSW store (.response status results)).store.find?
          (fun x => x.uuid == res.uuid) = some { r with sync_status := "synced" } ∧
      (syncWithServerClient store (.response status results)).store.find?
          (fun x => x.uuid == res.uuid) = some { r with sync_status := "synced" }) ∧
    (res.status ≠ "created" → res.status ≠ "updated" →
      (syncWithServerSW store (.response status results)).store.find?
          (fun x => x.uuid == res.uuid) = some { r with sync_status := "conflict" } ∧
      (res.status = "conflict" →
        (syncWithServerClient store (.response status results)).store.find?
            (fun x => x.uuid == res.uuid) = some { r with sync_status := "conflict" }) ∧
      (res.status ≠ "conflict" →
        (syncWithServerClient store (.response status results)).store.find?
            (fun x => x.uuid == res.uuid) = some r)) := by
  have hrmem : r ∈ store := List.mem_of_find?_eq_some hfind
  have hne : (getPendingTranscripts store).isEmpty = false :=
    pending_isEmpty_false store r hrmem hpend
  have hsw : (syncWithServerSW store (.response status results)).store =
      applyResultsSW store results := by
    simp [syncWithServerSW, hne, hok]
  have hcl : (syncWithServerClient store (.response status results)).store =
      applyResultsClient store results := by
    simp [syncWithServerClient, hne, hok]
  have hswfind : (applyResultsSW store results).find? (fun x => x.uuid == res.uuid) =
      some { r with sync_status := mapStatusSW res.status } := by
    rw [find?_applyResultsSW, hfind]
    rw [Option.map_some']
    rw [statusAfterSW_unique res.uuid r.sync_status results res hmem hnd rfl]
  have hclfind : (applyResultsClient store results).find? (fun x => x.uuid == res.uuid) =
      some { r with sync_status := (mapStatusClient res.status).getD r.sync_status } := by
    rw [find?_applyResultsClient, hfind]
    rw [Option.map_some']
    rw [statusAfterClient_unique res.uuid r.sync_status results res hmem hnd rfl]
  constructor
  · intro hgood
    rw [hsw, hcl, hswfind, hclfind]
    rcases hgood with h | h <;>
      simp [mapStatusSW, mapStatusClient, h]
  · intro hnc hnu
    rw [hsw, hcl, hswfind, hclfind]
    refine ⟨?_, ?_, ?_⟩
    · simp [mapStatusSW, hnc, hnu]
    · intro hconf
      simp [mapStatusClient, hnc, hnu, hconf]
    · intro hother
      simp [mapStatusClient, hnc, hnu, hother]

/-- Witness for C1 (amended) on a one-record store with a `created`
result. -/
theorem C1_conservative_mapping_witness :
    (syncWithServerSW [⟨"u1", "sp", "hello", 100, "pending"⟩]
        (.response 200 [⟨"u1", "created"⟩])).store.find?
      (fun x => x.uuid == "u1") = some ⟨"u1", "sp", "hello", 100, "synced"⟩ ∧
    (syncWithServerClient [⟨"u1", "sp", "hello", 100, "pending"⟩]
        (.response 200 [⟨"u1", "created"⟩])).store.find?
      (fun x => x.uuid == "u1") = some ⟨"u1", "sp", "hello", 100, "synced"⟩ := by
  have h := C1_conservative_mapping [⟨"u1", "sp", "hello", 100, "pending"⟩] 200
    [⟨"u1", "created"⟩] ⟨"u1", "created"⟩ ⟨"u1", "sp", "hello", 100, "pending"⟩
    (by decide) (by decide) rfl (by decide) (by decide)
  exact h.1 (Or.inl rfl)

/-- C2: on a successful response whose results mention each submitted key
at most once, the orchestrators apply each result to the stored record
whose key (`uuid`, the spec's `id`) equals the result's key, and every
submitted (pending) record whose key appears with status `created` or
`updated` ends `synced` — in both implementations. -/
theorem C2_results_applied_by_id
    (store : Store) (status : Nat) (results : List SyncResult)
    (res : SyncResult) (r : TranscriptRecord)
    (hok : responseOk status = true)
    (hfind : store.find? (fun x => x.uuid == res.uuid) = some r)
    (hpend : r.sync_status = "pending")
    (hmem : res ∈ results)
    (hnd : (results.map SyncResult.uuid).Nodup)
    (hst : res.status = "created" ∨ res.status = "updated") :
    (syncWithServerSW store (.response status results)).store.find?
        (fun x => x.uuid == res.uuid) = some { r with sync_status := "synced" } ∧
    (syncWithServerClient store (.response status results)).store.find?
        (fun x => x.uuid == res.uuid) = some { r with sync_status := "synced" } := by
  have hrmem : r ∈ store := List.mem_of_find?_eq_some hfind
  have hne : (getPendingTranscripts store).isEmpty = false :=
    pending_isEmpty_false store r hrmem hpend
  have hsw : (syncWithServerSW store (.response status results)).store =
      applyResultsSW store results := by
    simp [syncWithServerSW, hne, hok]
  have hcl : (syncWithServerClient store (.response status results)).store =
      applyResultsClient store results := by
    simp [syncWithServerClient, hne, hok]
  rw [hsw, hcl]
  constructor
  · rw [find?_applyResultsSW, hfind, Option.map_some',
      statusAfterSW_unique res.uuid r.sync_status results res hmem hnd rfl]
    rcases hst with h | h <;> simp [mapStatusSW, h]
  · rw [find?_applyResultsClient, hfind, Option.map_some',
      statusAfterClient_unique res.uuid r.sync_status results res hmem hnd rfl]
    rcases hst with h | h <;> simp [mapStatusClient, h]

/-- Witness for C2 on a two-record store with one `created` and one
`updated` result, checked for the `updated` entry. -/
theorem C2_results_applied_by_id_witness :
    (syncWithServerSW
        [⟨"u1", "sp", "hello", 100, "pending"⟩, ⟨"u2", "sq", "bye", 7, "pending"⟩]
        (.response 200 [⟨"u1", "created"⟩, ⟨"u2", "updated"⟩])).store.find?
      (fun x => x.uuid == "u2") = some ⟨"u2", "sq", "bye", 7, "synced"⟩ ∧
    (syncWithServerClient
        [⟨"u1", "sp", "hello", 100, "pending"⟩, ⟨"u2", "sq", "bye", 7, "pending"⟩]
        (.response 200 [⟨"u1", "created"⟩, ⟨"u2", "updated"⟩])).store.find?
      (fun x => x.uuid == "u2") = some ⟨"u2", "sq", "bye", 7, "synced"⟩ :=
  C2_results_applied_by_id
    [⟨"u1", "sp", "hello", 100, "pending"⟩, ⟨"u2", "sq", "bye", 7, "pending"⟩] 200
    [⟨"u1", "created"⟩, ⟨"u2", "updated"⟩] ⟨"u2", "updated"⟩
    ⟨"u2", "sq", "bye", 7, "pending"⟩
    (by decide) (by decide) rfl (by decide) (by decide) (Or.inr rfl)

end SmartCAPI
